import Mathlib

/-
  Verification of the EphemeralChat real-time core (app.py, backend.py)
  against its natural-language specification.

  The Redis-backed Room Store is embedded as a record of three maps
  (room metadata hashes, per-room membership sets, per-connection
  metadata hashes); the WebSocket endpoint of app.py is split into its
  sequential phases (admission checks, join establishment, inbound
  message processing, teardown) each embedded as a pure function on the
  store, returning the mutated store together with the list of
  envelopes published on the room's broker channel.  The per-room relay
  task of app.py is embedded as a broadcast pass over the local
  registry and a fuel-bounded poll loop.
-/

/-- Room preference flags, read by app.py:351-352 from the
`preferences` field of the room hash.  `room.get("preferences", {})`
followed by an `isinstance(..., dict)` guard means an absent or
non-dict value behaves as the empty dict; we model that by `Option
Prefs` with `none` covering both. -/
structure Prefs where
  destroy_on_owner_offline : Bool
deriving DecidableEq, Repr

/-- Room metadata hash (`room:meta:{slug}`), the fields the WebSocket
endpoint reads: `expires_at`, `password`, `max_users` (default 20 via
`room.get("max_users", 20)`), `owner_name`, `preferences`. -/
structure Room where
  expires_at : Option String
  password : Option String
  max_users : Option Nat
  owner_name : Option String
  preferences : Option Prefs
deriving DecidableEq, Repr

/-- Connection metadata hash (`conn:{connection_id}`), as written by
app.py:216-220: `connected_at`, `room_id`, `display_name`. -/
structure ConnMeta where
  connected_at : String
  room_id : String
  display_name : String
deriving DecidableEq, Repr

/-- The shared Room Store: room hashes, per-room membership sets
(`room:users:{slug}`, Redis sets of connection ids) and per-connection
metadata hashes. -/
structure Store where
  rooms : String → Option Room
  members : String → Finset String
  conns : String → Option ConnMeta

/-- backend.py get_room. -/
def getRoom (st : Store) (roomId : String) : Option Room :=
  st.rooms roomId

/-- backend.py delete_room: deletes the meta hash and the users set. -/
def deleteRoom (st : Store) (roomId : String) : Store :=
  { st with
    rooms := fun r => if r = roomId then none else st.rooms r,
    members := fun r => if r = roomId then ∅ else st.members r }

/-- backend.py add_user_to_room: SADD on the room's users set and
HSET of the connection metadata hash. -/
def addUserToRoom (st : Store) (roomId connId : String) (meta : ConnMeta) : Store :=
  { st with
    members := fun r => if r = roomId then insert connId (st.members r) else st.members r,
    conns := fun c => if c = connId then some meta else st.conns c }

/-- backend.py remove_user_from_room: SREM on the room's users set and
DEL of the connection metadata hash. -/
def removeUserFromRoom (st : Store) (roomId connId : String) : Store :=
  { st with
    members := fun r => if r = roomId then (st.members r).erase connId else st.members r,
    conns := fun c => if c = connId then none else st.conns c }

/-- backend.py get_users_in_room: SMEMBERS of the room's users set. -/
def getUsersInRoom (st : Store) (roomId : String) : Finset String :=
  st.members roomId

/-- Python `str.lower()` (character-wise lowercasing; agrees with it
on the ASCII names this system handles). -/
def lowerStr (s : String) : String :=
  String.mk (s.data.map Char.toLower)

/-- Python `str.strip()`: drop leading and trailing whitespace
(agrees with it on ASCII whitespace). -/
def stripStr (s : String) : String :=
  String.mk (((s.data.dropWhile Char.isWhitespace).reverse.dropWhile
    Char.isWhitespace).reverse)

/-- The lowercased display name of a connection, or `none` when the
connection hash is absent or its display name is empty — mirroring the
`if conn_data and "display_name" in conn_data` / `if display_name:`
guards of backend.py:129-132. -/
def connLowerName (st : Store) (c : String) : Option String :=
  match st.conns c with
  | some m => if m.display_name = "" then none else some (lowerStr m.display_name)
  | none => none

/-- backend.py get_display_names_in_room: the set of lowercased display
names of the room's members whose connection hash is present. -/
def getDisplayNamesInRoom (st : Store) (roomId : String) : Finset String :=
  ((st.members roomId).filter (fun c => (connLowerName st c).isSome)).image
    (fun c => (connLowerName st c).getD "")

/-- app.py:161 — `expires_at and expires_at < datetime.now().isoformat()`:
the room is expired when the field is present, truthy (non-empty) and
lexicographically below the current ISO timestamp (Python compares the
ISO strings directly). -/
def roomExpired (room : Room) (now : String) : Bool :=
  match room.expires_at with
  | some e => e ≠ "" && e < now
  | none => false

/-- app.py:170 — `if room_password and room_password != "None" and
room_password != ""`: the room counts as password-protected only when
the stored password is present, non-empty and not the sentinel string
"None". -/
def passwordProtected (roomPassword : Option String) : Bool :=
  match roomPassword with
  | some p => p ≠ "" && p ≠ "None"
  | none => false

/-- Python truthiness of the supplied query parameter: `not password`
is true when it is absent or the empty string. -/
def suppliedFalsy : Option String → Bool
  | none => true
  | some s => s = ""

/-- app.py:170-171 — the password check rejects exactly when the room
is password-protected and the supplied password is falsy or not string-equal
to the stored one. -/
def passwordRejects (roomPassword supplied : Option String) : Bool :=
  passwordProtected roomPassword &&
    (suppliedFalsy supplied || decide (roomPassword ≠ supplied))

/-- app.py:189 fallback — `f"User_{connection_id[:8]}"`. -/
def fallbackName (connId : String) : String :=
  "User_" ++ connId.take 8

/-- app.py:189 — `display_name.strip() if display_name and
display_name.strip() else f"User_{connection_id[:8]}"`. -/
def finalDisplayName (displayName : Option String) (connId : String) : String :=
  match displayName with
  | some d => if stripStr d ≠ "" then stripStr d else fallbackName connId
  | none => fallbackName connId

/-- app.py:177 — `room.get("max_users", 20)`. -/
def maxUsersOf (room : Room) : Nat :=
  room.max_users.getD 20

/-- app.py:195 — the rejection reason for a taken display name. -/
def nameTakenReason (n : String) : String :=
  "Display name \x27" ++ n ++ "\x27 is already taken. Please choose a different name."

/-- Result of the admission phase: either the socket is closed with a
code and reason before ever being accepted, or all five checks passed
and `websocket.accept()` (app.py:199) is reached with the generated
connection id and final display name. -/
inductive AdmitResult where
  | reject (code : Nat) (reason : String)
  | accept (connId : String) (finalName : String)
deriving DecidableEq, Repr

/-- The rejection reason carried by an admission result, if any. -/
def AdmitResult.reason : AdmitResult → Option String
  | .reject _ r => some r
  | .accept _ _ => none

/-- The close code carried by an admission result, if any. -/
def AdmitResult.code : AdmitResult → Option Nat
  | .reject c _ => some c
  | .accept _ _ => none

/-- app.py:151-199, the admission phase of the WebSocket endpoint:
room existence, expiry (which also deletes the room), password,
occupancy, case-insensitive display-name uniqueness — in that order,
each failure closing with code 1008 before the socket is accepted.
Returns the admission result together with the store (mutated only by
the expiry-triggered deletion). -/
def admission (st : Store) (roomId : String) (displayName password : Option String)
    (connId now : String) : AdmitResult × Store :=
  match st.rooms roomId with
  | none => (.reject 1008 "Room not found", st)
  | some room =>
    if roomExpired room now then
      (.reject 1008 "Room expired", deleteRoom st roomId)
    else if passwordRejects room.password password then
      (.reject 1008 "Invalid password", st)
    else if (getUsersInRoom st roomId).card ≥ maxUsersOf room then
      (.reject 1008 "Room is full", st)
    else
      let finalName := finalDisplayName displayName connId
      if lowerStr finalName ∈ getDisplayNamesInRoom st roomId then
        (.reject 1008 (nameTakenReason finalName), st)
      else
        (.accept connId finalName, st)

/-- The reasons of ALL failing admission checks, in the specified
order (room exists, not expired, password, occupancy, name unique);
stated independently of the control flow of `admission` so that
"the first failing check decides" is a genuine theorem. -/
def failureReasons (st : Store) (roomId : String) (displayName password : Option String)
    (connId now : String) : List String :=
  (if (st.rooms roomId).isNone then ["Room not found"] else []) ++
  (match st.rooms roomId with
   | none => []
   | some room =>
     (if roomExpired room now then ["Room expired"] else []) ++
     (if passwordRejects room.password password then ["Invalid password"] else []) ++
     (if (getUsersInRoom st roomId).card ≥ maxUsersOf room then ["Room is full"] else []) ++
     (if lowerStr (finalDisplayName displayName connId) ∈ getDisplayNamesInRoom st roomId
      then [nameTakenReason (finalDisplayName displayName connId)] else []))

/-- An envelope published on the room's broker channel.  The three
constructors mirror the three dict literals app.py publishes:
presence events (app.py:257-265 and 336-344), system notices
(app.py:354-359), and chat messages forwarded from clients
(app.py:279-307, see `MsgObj`). -/
inductive PubMsg where
  | presence (event : String) (connection_id : String) (display_name : String)
      (room_id : String) (timestamp : String) (online_count : Nat)
  | system (message : String) (room_id : String) (timestamp : String)
  | chat (m : List (String × String))
deriving DecidableEq, Repr

/-- Is this envelope a presence event with the given `event` field? -/
def PubMsg.isPresenceEvent (e : String) : PubMsg → Bool
  | .presence ev _ _ _ _ _ => ev = e
  | _ => false

/-- Is this envelope a system notice? -/
def PubMsg.isSystem : PubMsg → Bool
  | .system _ _ _ => true
  | _ => false

/-- Outcome of the post-admission join phase: the mutated store, the
envelopes published on the broker, and the `online_count` sent in the
welcome frame. -/
structure JoinOutcome where
  store : Store
  published : List PubMsg
  welcomeCount : Nat

/-- app.py:202-267, the phase after `websocket.accept()`: register the
connection in the shared store with its metadata (add_user_to_room,
app.py:221), read the membership set back (app.py:225), send the
welcome frame carrying that count, and publish exactly one
`user_online` presence event carrying the same count.  `welcomeSendOk`
models whether `websocket.send_text` of the welcome frame succeeds; on
failure the exception propagates to the outer handler (app.py:317) and
nothing is published. -/
def joinEstablish (st : Store) (roomId connId finalName now : String)
    (welcomeSendOk : Bool) : JoinOutcome :=
  let st1 := addUserToRoom st roomId connId ⟨now, roomId, finalName⟩
  let onlineCount := (getUsersInRoom st1 roomId).card
  if welcomeSendOk then
    { store := st1,
      published := [.presence "user_online" connId finalName roomId now onlineCount],
      welcomeCount := onlineCount }
  else
    { store := st1, published := [], welcomeCount := onlineCount }

/-- Outcome of the teardown phase: the mutated store and the envelopes
published on the broker, in publication order. -/
structure TeardownOutcome where
  store : Store
  published : List PubMsg

/-- app.py:319-361, the teardown executed in the `finally` block once a
connection had been accepted: remove the connection from the shared
store (remove_user_from_room, app.py:327 — this also deletes the
`conn:{connection_id}` hash), then look the hash up again (app.py:333)
to obtain the display name — necessarily getting the fallback — publish
one `user_offline` presence event carrying the post-removal member
count, and run the owner-offline check: if the room's `owner_name`
equals that display name and `preferences.destroy_on_owner_offline` is
set, publish a terminal system notice and delete the room. -/
def teardown (st : Store) (roomId connId now : String) : TeardownOutcome :=
  let st1 := removeUserFromRoom st roomId connId
  let displayName :=
    match st1.conns connId with
    | some m => if m.display_name = "" then fallbackName connId else m.display_name
    | none => fallbackName connId
  let offline : PubMsg :=
    .presence "user_offline" connId displayName roomId now (getUsersInRoom st1 roomId).card
  match st1.rooms roomId with
  | some room =>
    if decide (room.owner_name = some displayName) &&
        (match room.preferences with
         | some p => p.destroy_on_owner_offline
         | none => false) then
      { store := deleteRoom st1 roomId,
        published := [offline,
          .system "Room owner went offline shutting down room" roomId now] }
    else
      { store := st1, published := [offline] }
  | none => { store := st1, published := [offline] }

/-- Outcome of one broadcast pass of the relay task over its local
registry: which connections were handed the frame, the registry after
the pass, and the store after the pass. -/
structure RelayPassOutcome where
  delivered : List (String × PubMsg)
  registry : List (String × Bool)
  store : Store

/-- app.py:93-115, one fan-out pass of the Redis listener for an
envelope decoded from the channel.  The local registry is the room's
`{connection_id: websocket}` dict in iteration order, each connection
tagged with whether an awaited `send_text` on its socket would
succeed.  In the source, `ws.send_text(...)` inside the `try` of the
first loop is the construction of a coroutine (`send_text` is an
`async def`), which cannot raise — the awaiting happens inside
`asyncio.gather(*send_tasks, return_exceptions=True)`, which swallows
failures.  Hence the `except` branch filling `disconnected_connections`
is unreachable: the cleanup loop runs over an empty list, a failed
send merely fails to deliver, and neither the registry nor the store
membership is touched. -/
def relayBroadcast (st : Store) (roomId : String) (registry : List (String × Bool))
    (envlp : PubMsg) : RelayPassOutcome :=
  let sendTasks := registry
  let disconnected : List String := []
  let registry1 := registry.filter (fun p => ¬ p.1 ∈ disconnected)
  let store1 := disconnected.foldl (fun s c => removeUserFromRoom s roomId c) st
  { delivered := (sendTasks.filter (fun p => p.2)).map (fun p => (p.1, envlp)),
    registry := registry1,
    store := store1 }

/-- app.py:70 — the bounded poll the listener uses:
`pubsub.get_message(timeout=1.0, ...)`, in seconds. -/
def listenPollTimeoutSeconds : Nat := 1

/-- app.py:60-79 for a fixed local registry: the number of
`get_message` polls the listener loop performs before the
"no more connections" check at the top of the loop (app.py:62) stops
it, bounded by `fuel` iterations. -/
def relayPollCount (localConns : List String) : Nat → Nat
  | 0 => 0
  | f + 1 => if localConns.isEmpty then 0 else 1 + relayPollCount localConns f

/-- Status of an entry in the per-room task table
(`room_pubsub_tasks`): running, or done (finished or cancelled —
`task.done()` is true for both). -/
inductive TaskStatus where
  | running
  | done
deriving DecidableEq, Repr

/-- app.py:209-210 — `if room_id not in room_pubsub_tasks or
room_pubsub_tasks[room_id].done(): room_pubsub_tasks[room_id] =
asyncio.create_task(...)`.  Returns the updated task table and whether
a fresh task was started. -/
def ensureRelayTask (tasks : String → Option TaskStatus) (roomId : String) :
    (String → Option TaskStatus) × Bool :=
  match tasks roomId with
  | some .running => (tasks, false)
  | _ => (fun r => if r = roomId then some .running else tasks r, true)

/-- A decoded JSON object as the message loop sees it: the four fields
app.py:290-304 inspects or writes, plus the remaining key/value pairs
it passes through untouched. -/
structure MsgObj where
  type : Option String
  text : Option String
  connection_id : Option String
  timestamp : Option String
  room_id : Option String
  display_name : Option String
  extra : List (String × String)
deriving DecidableEq, Repr

/-- An inbound client text frame, classified by what `json.loads`
makes of it: not valid JSON at all, a JSON object, or valid JSON that
is not an object (number, string, array, boolean or null). -/
inductive Frame where
  | text (raw : String)
  | jsonObj (m : MsgObj)
  | jsonNonObj (raw : String)
deriving DecidableEq, Repr

/-- app.py:290-304 — fill the missing `connection_id`, `timestamp` and
`room_id` fields with the sender's connection id, the current time and
the room id, then overwrite `display_name` with the sender's stored
display name when the `conn:{connection_id}` hash is available. -/
def fillAndEnrich (st : Store) (roomId connId now : String) (m : MsgObj) : MsgObj :=
  let m1 := if m.connection_id.isNone then { m with connection_id := some connId } else m
  let m2 := if m1.timestamp.isNone then { m1 with timestamp := some now } else m1
  let m3 := if m2.room_id.isNone then { m2 with room_id := some roomId } else m2
  match st.conns connId with
  | some meta => { m3 with display_name := some meta.display_name }
  | none => m3

/-- app.py:271-308, one iteration of the message loop on an inbound
frame: the list of envelopes published on the broker for it.  A frame
that is not valid JSON is wrapped as a plain-text message
(app.py:282-287: type "message", `text` = raw payload, sender id and
timestamp) and then filled/enriched like a decoded object.  A frame
decoding to a JSON object is filled/enriched and published.  A frame
decoding to a non-object JSON value raises `TypeError` at
`"connection_id" not in message` or at the item assignment; the
generic `except` at app.py:313 catches it and breaks the loop, so
nothing is published. -/
def processInboundFrame (st : Store) (roomId connId now : String) : Frame → List MsgObj
  | .text raw =>
    let wrapped : MsgObj :=
      { type := some "message", text := some raw, connection_id := some connId,
        timestamp := some now, room_id := none, display_name := none, extra := [] }
    [fillAndEnrich st roomId connId now wrapped]
  | .jsonObj m => [fillAndEnrich st roomId connId now m]
  | .jsonNonObj _ => []

/-- The `online_count` field of a presence envelope, if any. -/
def PubMsg.onlineCount : PubMsg → Option Nat
  | .presence _ _ _ _ _ n => some n
  | _ => none

/-- The empty Room Store. -/
def emptyStore : Store :=
  { rooms := fun _ => none, members := fun _ => ∅, conns := fun _ => none }

/-- Write a room metadata hash into the store (backend.py create_room,
restricted to the fields the WebSocket endpoint reads). -/
def putRoom (st : Store) (roomId : String) (room : Room) : Store :=
  { st with rooms := fun r => if r = roomId then some room else st.rooms r }

/-- Connection metadata with a fixed join time, for concrete scenarios. -/
def mkMeta (roomId displayName : String) : ConnMeta :=
  { connected_at := "t0", room_id := roomId, display_name := displayName }

/-- A room owned by "bob" with `destroy_on_owner_offline` requested. -/
def roomBob : Room :=
  { expires_at := none, password := none, max_users := some 20,
    owner_name := some "bob", preferences := some { destroy_on_owner_offline := true } }

/-- Store for the owner-offline scenario: room "r1" owned by "bob",
with connection "conn-1234-abcd" joined under display name "bob". -/
def stOwner : Store :=
  addUserToRoom (putRoom emptyStore "r1" roomBob) "r1" "conn-1234-abcd"
    (mkMeta "r1" "bob")

/-- A plain room: no expiry, no password, default capacity, no owner. -/
def roomPlain : Room :=
  { expires_at := none, password := none, max_users := some 20,
    owner_name := none, preferences := none }

/-- Store for the fan-out scenario: room "rx" with members "conn-a"
and "conn-b". -/
def stFanout : Store :=
  addUserToRoom
    (addUserToRoom (putRoom emptyStore "rx" roomPlain) "rx" "conn-a" (mkMeta "rx" "alice"))
    "rx" "conn-b" (mkMeta "rx" "bert")

/-- The local registry for the fan-out scenario: "conn-a" with a
healthy socket, "conn-b" with a socket whose send fails. -/
def regFanout : List (String × Bool) := [("conn-a", true), ("conn-b", false)]

/-- A room whose stored password is the literal string "None" —
reachable by creating a room with the password "None", which
routers/rooms.py stores verbatim. -/
def roomNonePw : Room :=
  { expires_at := none, password := some "None", max_users := some 20,
    owner_name := none, preferences := none }

/-- Store holding only the "None"-password room "r4". -/
def stNonePw : Store := putRoom emptyStore "r4" roomNonePw

/-- A room protected by the password "secret". -/
def roomSecret : Room :=
  { expires_at := none, password := some "secret", max_users := some 20,
    owner_name := none, preferences := none }

/-- Store holding only the password-protected room "rs". -/
def stSecret : Store := putRoom emptyStore "rs" roomSecret

/-- A room with max occupancy 1. -/
def roomOne : Room :=
  { expires_at := none, password := none, max_users := some 1,
    owner_name := none, preferences := none }

/-- Store for the occupancy scenario: room "rf" with capacity 1,
already holding member "conn-a". -/
def stFull : Store :=
  addUserToRoom (putRoom emptyStore "rf" roomOne) "rf" "conn-a" (mkMeta "rf" "alice")

/-- Store for the name-uniqueness scenario: rooms "room1" and "room2",
with connection "conn-alice" joined in "room1" under display name
"Alice" and "room2" empty. -/
def stTwoRooms : Store :=
  addUserToRoom
    (putRoom (putRoom emptyStore "room1" roomPlain) "room2" roomPlain)
    "room1" "conn-alice" (mkMeta "room1" "Alice")

/-- Claim C10: in every teardown the shared-store membership and the
`conn:{connection_id}` hash are deleted (remove_user_from_room,
app.py:327) before the display name is looked up for the `user_offline`
event and the owner-offline check (app.py:333-334), so the event always
carries the generated fallback "User_" ++ first 8 characters of the
connection id, and the owner comparison is made against that fallback,
never against the display name recorded at join. -/
theorem C10_offline_event_uses_fallback_name (st : Store) (roomId connId now : String) :
    (teardown st roomId connId now).published.head? =
      some (PubMsg.presence "user_offline" connId (fallbackName connId) roomId now
        (getUsersInRoom (removeUserFromRoom st roomId connId) roomId).card) ∧
    ((teardown st roomId connId now).published.any PubMsg.isSystem =
      match st.rooms roomId with
      | some room =>
        decide (room.owner_name = some (fallbackName connId)) &&
          (match room.preferences with
           | some p => p.destroy_on_owner_offline
           | none => false)
      | none => false) := by
  simp only [teardown]
  have hconn : (removeUserFromRoom st roomId connId).conns connId = none := by
    simp [removeUserFromRoom]
  have hrooms : (removeUserFromRoom st roomId connId).rooms roomId = st.rooms roomId := by
    simp [removeUserFromRoom]
  rw [hconn, hrooms]
  cases hr : st.rooms roomId with
  | none => simp [PubMsg.isSystem]
  | some room =>
    by_cases h : (decide (room.owner_name = some (fallbackName connId)) &&
        (match room.preferences with
         | some p => p.destroy_on_owner_offline
         | none => false)) = true
    · simp [h, PubMsg.isSystem]
    · simp [h, PubMsg.isSystem]

/-- Claim C1 (divergence of the code from the claim): room "r1" is
owned by "bob" with `destroy_on_owner_offline` set, and connection
"conn-1234-abcd" joined it under display name "bob"; on teardown the
code compares the fallback name "User_conn-123" (the conn hash was
already deleted) against "bob", so it publishes no system notice and
leaves the room in the store, while the claim requires a terminal
system notice followed by deletion of the room. -/
theorem C1_owner_offline_divergence :
    (stOwner.conns "conn-1234-abcd").map ConnMeta.display_name = some "bob" ∧
    roomBob.owner_name = some "bob" ∧
    roomBob.preferences = some { destroy_on_owner_offline := true } ∧
    (teardown stOwner "r1" "conn-1234-abcd" "t1").store.rooms "r1" = some roomBob ∧
    (teardown stOwner "r1" "conn-1234-abcd" "t1").published =
      [PubMsg.presence "user_offline" "conn-1234-abcd" "User_conn-123" "r1" "t1" 0] := by
  decide

/-- Claim C3: a successful join (welcome frame delivered) publishes
exactly one `user_online` presence event, and a teardown publishes
exactly one `user_offline` presence event; the `online_count` carried
by the `user_online` event is the size of the room's shared membership
set of the store produced by the join (read right after
add_user_to_room, app.py:221-226), and the one carried by the
`user_offline` event is the size right after remove_user_from_room
(app.py:327-343). -/
theorem C3_presence_events_and_counts (st : Store) (roomId connId finalName now : String) :
    ((joinEstablish st roomId connId finalName now true).published.countP
        (PubMsg.isPresenceEvent "user_online") = 1 ∧
      ((joinEstablish st roomId connId finalName now true).published.filter
          (PubMsg.isPresenceEvent "user_online")).map PubMsg.onlineCount =
        [some (getUsersInRoom (joinEstablish st roomId connId finalName now true).store
          roomId).card]) ∧
    ((teardown st roomId connId now).published.countP
        (PubMsg.isPresenceEvent "user_offline") = 1 ∧
      ((teardown st roomId connId now).published.filter
          (PubMsg.isPresenceEvent "user_offline")).map PubMsg.onlineCount =
        [some (getUsersInRoom (removeUserFromRoom st roomId connId) roomId).card]) := by
  constructor
  · simp [joinEstablish, PubMsg.isPresenceEvent, PubMsg.onlineCount, List.countP_cons, List.countP_nil]
  · simp only [teardown]
    have hconn : (removeUserFromRoom st roomId connId).conns connId = none := by
      simp [removeUserFromRoom]
    rw [hconn]
    cases hr : (removeUserFromRoom st roomId connId).rooms roomId with
    | none => simp [PubMsg.isPresenceEvent, PubMsg.onlineCount, List.countP_cons, List.countP_nil]
    | some room =>
      by_cases h : (decide (room.owner_name = some (fallbackName connId)) &&
          (match room.preferences with
           | some p => p.destroy_on_owner_offline
           | none => false)) = true
      · simp [h, PubMsg.isPresenceEvent, PubMsg.onlineCount, List.countP_cons, List.countP_nil]
      · simp [h, PubMsg.isPresenceEvent, PubMsg.onlineCount, List.countP_cons, List.countP_nil]

/-- Claim C2 (divergence of the code from the claim): room "rx" has
local registry ["conn-a" (healthy socket), "conn-b" (send fails)] and
both in the shared membership set; broadcasting an envelope delivers
it field-for-field to "conn-a" without being blocked by the failure,
but "conn-b" — whose send fails inside `asyncio.gather(...,
return_exceptions=True)` where the exception is swallowed — is NOT
removed: the registry and the shared membership set are unchanged,
while the claim requires it removed from both. -/
theorem C2_send_failure_not_removed :
    (relayBroadcast stFanout "rx" regFanout (PubMsg.system "hello" "rx" "t1")).delivered =
      [("conn-a", PubMsg.system "hello" "rx" "t1")] ∧
    (relayBroadcast stFanout "rx" regFanout (PubMsg.system "hello" "rx" "t1")).registry =
      regFanout ∧
    (relayBroadcast stFanout "rx" regFanout (PubMsg.system "hello" "rx" "t1")).store.members
        "rx" = stFanout.members "rx" ∧
    ("conn-b", false) ∈ regFanout ∧
    "conn-b" ∈ stFanout.members "rx" := by
  refine ⟨rfl, by decide, rfl, by decide, by decide⟩

/-- Claim C9 (amended): every inbound frame that fails JSON decoding
is wrapped as a plain-text message envelope carrying the raw payload
and published once; every frame decoding to a JSON object has missing
connection_id/timestamp/room_id filled with the sender's connection
id, the current time and the room id, the sender's stored display name
attached when available, and is published once; a frame decoding to a
non-object JSON value publishes nothing (the `TypeError` it raises is
caught at app.py:313 and ends the message loop). -/
theorem C9_one_publish_per_decodable_frame (st : Store) (roomId connId now raw : String)
    (m : MsgObj) :
    (processInboundFrame st roomId connId now (.text raw) =
      [{ type := some "message", text := some raw, connection_id := some connId,
         timestamp := some now, room_id := some roomId,
         display_name := (st.conns connId).map ConnMeta.display_name,
         extra := [] }]) ∧
    (processInboundFrame st roomId connId now (.jsonObj m) =
      [{ type := m.type, text := m.text,
         connection_id := some (m.connection_id.getD connId),
         timestamp := some (m.timestamp.getD now),
         room_id := some (m.room_id.getD roomId),
         display_name := match st.conns connId with
                         | some meta => some meta.display_name
                         | none => m.display_name,
         extra := m.extra }]) ∧
    processInboundFrame st roomId connId now (.jsonNonObj raw) = [] := by
  refine ⟨?_, ?_, rfl⟩
  · simp only [processInboundFrame, fillAndEnrich]
    cases hc : st.conns connId <;> simp [hc]
  · simp only [processInboundFrame, fillAndEnrich]
    rcases m with ⟨ty, tx, ci, ts, ri, dn, ex⟩
    cases ci <;> cases ts <;> cases ri <;> cases hc : st.conns connId <;> simp [hc]

/-- Claim C9 (counterexample to the claim as stated): the inbound
frame "5" is valid JSON but not a JSON object; the message loop
publishes no envelope for it, not exactly one. -/
theorem C9_nonobject_json_counterexample :
    processInboundFrame emptyStore "r" "c" "t" (.jsonNonObj "5") = ([] : List MsgObj) ∧
    ([] : List MsgObj).length = 0 := ⟨rfl, rfl⟩

/-- Claim C8: the relay listener's receive loop re-checks its room's
local registry at the top of every iteration before the bounded
(1-second) poll, so with an empty registry it performs zero further
polls and terminates; and a finished or cancelled task in the task
table is treated as replaceable — `ensureRelayTask` starts a fresh
task exactly when the slot is absent or the task there is done, and
afterwards the slot always holds a running task. -/
theorem C8_relay_stop_and_restart (tasks : String → Option TaskStatus) (roomId : String)
    (fuel : Nat) :
    relayPollCount [] fuel = 0 ∧
    listenPollTimeoutSeconds = 1 ∧
    ((ensureRelayTask tasks roomId).2 = true ↔ tasks roomId ≠ some TaskStatus.running) ∧
    (ensureRelayTask tasks roomId).1 roomId = some TaskStatus.running := by
  refine ⟨?_, rfl, ?_, ?_⟩
  · cases fuel <;> simp [relayPollCount]
  · unfold ensureRelayTask
    cases h : tasks roomId with
    | none => simp [h]
    | some s => cases s <;> simp [h]
  · unfold ensureRelayTask
    cases h : tasks roomId with
    | none => simp
    | some s => cases s <;> simp [h]

/-- The length of the name-taken rejection reason: 14 characters of
prefix, the name, 51 characters of suffix. -/
theorem nameTakenReason_length (n : String) : (nameTakenReason n).length = n.length + 65 := by
  unfold nameTakenReason
  rw [String.length_append, String.length_append]
  have h1 : ("Display name \x27" : String).length = 14 := rfl
  have h2 : ("\x27 is already taken. Please choose a different name." : String).length = 51 := rfl
  omega

/-- The name-taken rejection reason is never a string shorter than 65
characters, whatever the display name. -/
theorem nameTakenReason_ne_short (n s : String) (h : s.length < 65) :
    nameTakenReason n ≠ s := by
  intro he
  have h1 := nameTakenReason_length n
  rw [he] at h1
  omega

/-- Claim C7: the five admission checks run in the order room-exists,
not-expired, password, occupancy, display-name-unique; the first
failing check decides the rejection (the head of the list of all
failing checks in that order), every rejection closes with the single
policy-violation code 1008, the five reason strings are pairwise
distinct, and exactly the expired rejection additionally deletes the
room from the Room Store.  In `admission` (app.py:151-199) every
rejection returns before `websocket.accept()` at app.py:199 is
reached. -/
theorem C7_admission_order_and_reasons (st : Store) (roomId : String)
    (dn pw : Option String) (connId now : String) :
    ((admission st roomId dn pw connId now).1.reason =
      (failureReasons st roomId dn pw connId now).head?) ∧
    ((admission st roomId dn pw connId now).1.code =
      ((admission st roomId dn pw connId now).1.reason).map (fun _ => 1008)) ∧
    ((admission st roomId dn pw connId now).2 =
      if (admission st roomId dn pw connId now).1.reason = some "Room expired"
      then deleteRoom st roomId else st) ∧
    List.Pairwise (fun a b => a ≠ b)
      ["Room not found", "Room expired", "Invalid password", "Room is full",
        nameTakenReason (finalDisplayName dn connId)] := by
  have hpair : List.Pairwise (fun a b : String => a ≠ b)
      ["Room not found", "Room expired", "Invalid password", "Room is full",
        nameTakenReason (finalDisplayName dn connId)] := by
    refine List.pairwise_cons.2 ⟨?_, List.pairwise_cons.2 ⟨?_, List.pairwise_cons.2
      ⟨?_, List.pairwise_cons.2 ⟨?_, List.pairwise_singleton _ _⟩⟩⟩⟩ <;>
    · intro b hb
      simp only [List.mem_cons, List.mem_singleton, List.not_mem_nil, or_false] at hb
      rcases hb with rfl | rfl | rfl | rfl <;>
        first
          | decide
          | exact (nameTakenReason_ne_short _ _ (by decide)).symm
  refine ⟨?_, ?_, ?_, hpair⟩ <;>
  · simp only [admission, failureReasons]
    cases hr : st.rooms roomId with
    | none => simp [AdmitResult.reason, AdmitResult.code]
    | some room =>
      by_cases he : roomExpired room now = true
      · simp [he, AdmitResult.reason, AdmitResult.code]
      · by_cases hp : passwordRejects room.password pw = true
        · simp [he, hp, AdmitResult.reason, AdmitResult.code]
        · by_cases hf : (getUsersInRoom st roomId).card ≥ maxUsersOf room
          · simp [he, hp, hf, AdmitResult.reason, AdmitResult.code]
          · by_cases hn : lowerStr (finalDisplayName dn connId) ∈ getDisplayNamesInRoom st roomId
            · simp [he, hp, hf, hn, AdmitResult.reason, AdmitResult.code,
                nameTakenReason_ne_short _ "Room expired" (by decide)]
            · simp [he, hp, hf, hn, AdmitResult.reason, AdmitResult.code]

/-- Claim C4 (counterexample to the claim as stated): room "r4" stores
the password "None" — a non-empty string, stored verbatim when a room
is created with the literal password "None" — yet an attempt
supplying no password is admitted instead of being rejected with
"Invalid password", because app.py:170 treats the stored string
"None" as "no password set". -/
theorem C4_none_password_counterexample :
    (some "None" : Option String) ≠ some "" ∧
    passwordRejects (some "None") none = false ∧
    (admission stNonePw "r4" (some "alice") none "cid-0001" "t1").1 =
      AdmitResult.accept "cid-0001" "alice" := by
  decide

/-- Claim C4 (amended): for every room whose stored password is
non-empty and not the literal string "None", a connection attempt
whose supplied password is missing, empty, or not exactly equal to
the stored password is rejected with reason "Invalid password"
(stated for attempts that pass the earlier room-exists and
not-expired checks, which run first), and an attempt supplying
exactly the stored password passes the password check. -/
theorem C4_password_check (st : Store) (roomId : String) (room : Room) (pw : String)
    (dn supplied : Option String) (connId now : String)
    (hroom : st.rooms roomId = some room) (hpw : room.password = some pw)
    (h1 : pw ≠ "") (h2 : pw ≠ "None")
    (hexp : roomExpired room now = false)
    (hmiss : suppliedFalsy supplied = true ∨ supplied ≠ some pw) :
    (admission st roomId dn supplied connId now).1 =
      AdmitResult.reject 1008 "Invalid password" ∧
    passwordRejects room.password (some pw) = false := by
  have hrej : passwordRejects room.password supplied = true := by
    rw [hpw]
    simp only [passwordRejects, passwordProtected, Bool.and_eq_true, Bool.or_eq_true,
      decide_eq_true_eq]
    refine ⟨⟨by simpa using h1, by simpa using h2⟩, ?_⟩
    rcases hmiss with h | h
    · exact Or.inl h
    · exact Or.inr (by simpa using fun hh => h hh.symm)
  constructor
  · simp only [admission, hroom]
    simp [hexp, hrej]
  · rw [hpw]
    simp [passwordRejects, passwordProtected, suppliedFalsy, h1]

/-- Witness for C4 (amended): room "rs" stores the password "secret";
an attempt with no password is rejected "Invalid password", and
supplying "secret" passes the password check. -/
theorem C4_password_check_witness :
    (admission stSecret "rs" (some "alice") none "cid-0002" "t1").1 =
      AdmitResult.reject 1008 "Invalid password" ∧
    passwordRejects roomSecret.password (some "secret") = false :=
  C4_password_check stSecret "rs" roomSecret "secret" (some "alice") none "cid-0002" "t1"
    (by decide) rfl (by decide) (by decide) rfl (Or.inl rfl)

/-- Membership in `getDisplayNamesInRoom` unfolded: a name is in the
room's display-name set exactly when some member's connection hash
yields it as lowercased display name. -/
theorem mem_getDisplayNamesInRoom (st : Store) (roomId n : String) :
    n ∈ getDisplayNamesInRoom st roomId ↔
      ∃ c ∈ st.members roomId, connLowerName st c = some n := by
  unfold getDisplayNamesInRoom
  simp only [Finset.mem_image, Finset.mem_filter]
  constructor
  · rintro ⟨c, ⟨hc, hsome⟩, hval⟩
    refine ⟨c, hc, ?_⟩
    cases h : connLowerName st c with
    | none => rw [h] at hsome; simp at hsome
    | some v =>
      rw [h] at hval
      simp only [Option.getD_some] at hval
      rw [hval]
  · rintro ⟨c, hc, h⟩
    exact ⟨c, ⟨hc, by rw [h]; rfl⟩, by rw [h]; rfl⟩

/-- Claim C5: with the earlier checks passing (room present, not
expired, password ok), a connection attempt is rejected "Room is
full" exactly when the shared membership set has size at least the
room's max occupancy; and after removing a member from a room at
exactly full occupancy, the occupancy is strictly below the limit
again, so the occupancy check passes. -/
theorem C5_occupancy_limit (st : Store) (roomId : String) (room : Room)
    (dn pw : Option String) (connId now : String)
    (hroom : st.rooms roomId = some room)
    (hexp : roomExpired room now = false)
    (hpw : passwordRejects room.password pw = false) :
    ((admission st roomId dn pw connId now).1.reason = some "Room is full" ↔
      maxUsersOf room ≤ (getUsersInRoom st roomId).card) ∧
    (∀ m ∈ st.members roomId, (st.members roomId).card = maxUsersOf room →
      ((removeUserFromRoom st roomId m).members roomId).card < maxUsersOf room) := by
  constructor
  · simp only [admission, hroom]
    by_cases hf : (getUsersInRoom st roomId).card ≥ maxUsersOf room
    · simp [hexp, hpw, hf, AdmitResult.reason]
    · by_cases hn : lowerStr (finalDisplayName dn connId) ∈ getDisplayNamesInRoom st roomId
      · simp [hexp, hpw, hf, hn, AdmitResult.reason,
          nameTakenReason_ne_short (finalDisplayName dn connId) "Room is full" (by decide)]
      · simp [hexp, hpw, hf, hn, AdmitResult.reason]
  · intro m hm hcard
    have hzero : (st.members roomId).card ≠ 0 := by
      intro h0
      rw [Finset.card_eq_zero] at h0
      rw [h0] at hm
      exact absurd hm (Finset.not_mem_empty m)
    simp only [removeUserFromRoom, if_true]
    rw [Finset.card_erase_of_mem hm]
    omega

/-- Witness for C5: room "rf" has max occupancy 1 and member "conn-a";
a new attempt is rejected "Room is full", and after removing "conn-a"
the occupancy is strictly below the limit again. -/
theorem C5_occupancy_limit_witness :
    (admission stFull "rf" (some "bert") none "cid-0003" "t1").1.reason =
      some "Room is full" ∧
    ((removeUserFromRoom stFull "rf" "conn-a").members "rf").card < maxUsersOf roomOne :=
  ⟨(C5_occupancy_limit stFull "rf" roomOne (some "bert") none "cid-0003" "t1"
      (by decide) rfl (by decide)).1.mpr (by decide),
   (C5_occupancy_limit stFull "rf" roomOne (some "bert") none "cid-0003" "t1"
      (by decide) rfl (by decide)).2 "conn-a" (by decide) (by decide)⟩

/-- Claim C6: with the earlier checks passing in both rooms, an
attempt whose final display name collides case-insensitively with an
existing member's display name in the same room is rejected with the
"display name taken" reason, while the same requested name is
accepted in a different room with no colliding member. -/
theorem C6_display_name_uniqueness (st : Store) (roomA roomB : String) (ra rb : Room)
    (dn pw : Option String) (connId now : String)
    (hra : st.rooms roomA = some ra) (hexpA : roomExpired ra now = false)
    (hpwA : passwordRejects ra.password pw = false)
    (hcapA : ¬ maxUsersOf ra ≤ (getUsersInRoom st roomA).card)
    (c : String) (meta : ConnMeta)
    (hc : c ∈ st.members roomA) (hmeta : st.conns c = some meta)
    (hne : meta.display_name ≠ "")
    (hcollide : lowerStr meta.display_name = lowerStr (finalDisplayName dn connId))
    (hrb : st.rooms roomB = some rb) (hexpB : roomExpired rb now = false)
    (hpwB : passwordRejects rb.password pw = false)
    (hcapB : ¬ maxUsersOf rb ≤ (getUsersInRoom st roomB).card)
    (hfree : ∀ c2 ∈ st.members roomB,
      connLowerName st c2 ≠ some (lowerStr (finalDisplayName dn connId))) :
    (admission st roomA dn pw connId now).1 =
      AdmitResult.reject 1008 (nameTakenReason (finalDisplayName dn connId)) ∧
    (admission st roomB dn pw connId now).1 =
      AdmitResult.accept connId (finalDisplayName dn connId) := by
  have htaken : lowerStr (finalDisplayName dn connId) ∈ getDisplayNamesInRoom st roomA := by
    rw [mem_getDisplayNamesInRoom]
    refine ⟨c, hc, ?_⟩
    unfold connLowerName
    rw [hmeta]
    simp [hne, hcollide]
  have hfreeB : lowerStr (finalDisplayName dn connId) ∉ getDisplayNamesInRoom st roomB := by
    rw [mem_getDisplayNamesInRoom]
    rintro ⟨c2, hc2, h⟩
    exact hfree c2 hc2 h
  constructor
  · simp only [admission, hra]
    simp [hexpA, hpwA, hcapA, htaken]
  · simp only [admission, hrb]
    simp [hexpB, hpwB, hcapB, hfreeB]

/-- Witness for C6: in `stTwoRooms`, "room1" holds member "conn-alice"
with display name "Alice"; requesting "alice" in "room1" is rejected
with the "display name taken" reason, while requesting "alice" in
"room2" is accepted. -/
theorem C6_display_name_uniqueness_witness :
    (admission stTwoRooms "room1" (some "alice") none "cid-0004" "t1").1 =
      AdmitResult.reject 1008
        (nameTakenReason (finalDisplayName (some "alice") "cid-0004")) ∧
    (admission stTwoRooms "room2" (some "alice") none "cid-0004" "t1").1 =
      AdmitResult.accept "cid-0004" (finalDisplayName (some "alice") "cid-0004") :=
  C6_display_name_uniqueness stTwoRooms "room1" "room2" roomPlain roomPlain
    (some "alice") none "cid-0004" "t1" (by decide) rfl (by decide) (by decide)
    "conn-alice" (mkMeta "room1" "Alice") (by decide) (by decide) (by decide)
    (by decide) (by decide) rfl (by decide) (by decide) (by decide)
